import Mathlib

/-!
Shallow embedding of the sprite layer of a small pygame platformer
(`sprites.py`): player physics integration, the jump state machine,
animation frame selection, the slime enemy animation, and the
spritesheet slicing helper.  Real-valued quantities (pygame float
vectors) are modelled as rationals; pygame rects are integer boxes;
fallible Python code (`% 0`, out-of-range indexing) returns `Except`.
-/

/-- A pygame `Vector2` (a pair of Python floats), modelled over ℚ. -/
structure Vec2 where
  x : ℚ
  y : ℚ
  deriving DecidableEq, Repr

/-- A pygame `Rect`: integer topleft corner plus width and height. -/
structure Rect where
  x : Int
  y : Int
  w : Int
  h : Int
  deriving DecidableEq, Repr

/-- `rect.left` is the x coordinate of the topleft corner. -/
def Rect.left (r : Rect) : Int := r.x

/-- `rect.bottom` is `y + h`. -/
def Rect.bottom (r : Rect) : Int := r.y + r.h

/-- An image, abstracted to its pixel size: all the sprite code observes
about an image is the rect obtained from it. -/
structure Img where
  w : Int
  h : Int
  deriving DecidableEq, Repr

/-- `image.get_rect()`: a rect at the origin with the image's size. -/
def Img.get_rect (i : Img) : Rect := ⟨0, 0, i.w, i.h⟩

/-- Python `int()` conversion of a float: truncation toward zero.  This is
the conversion pygame applies when float coordinates are assigned to a
`Rect` and the one `SpriteSheet.get_image` applies to the scaled size. -/
def truncQ (q : ℚ) : Int := if q < 0 then ⌈q⌉ else ⌊q⌋

/-- `rect.midbottom = p`: reposition the rect so its bottom-center is `p`,
truncating the float coordinates as pygame does; the setter keeps the
size and writes `x = centerx - w / 2`, `y = bottom - h`. -/
def Rect.setMidbottom (r : Rect) (p : Vec2) : Rect :=
  { r with x := truncQ p.x - r.w / 2, y := truncQ p.y - r.h }

/-- Python runtime errors the embedded code can raise.
`configurationError` is modelled from the spec: the spec names a
`ConfigurationError` for empty animation sequences, but no code in
`sprites.py` (or anywhere under the repository sources) defines or
raises such an exception. -/
inductive PyError where
  | zeroDivisionError
  | indexError
  | configurationError
  deriving DecidableEq, Repr

/-- The per-tick keyboard snapshot read by `Player.update`. -/
structure Keys where
  left : Bool
  right : Bool
  deriving DecidableEq, Repr

def noKeys : Keys := ⟨false, false⟩

/-- The configuration constants `sprites.py` reads from the `settings`
module (the settings file itself is not among the sources; the names
mirror the constants the code reads). -/
structure Cfg where
  PLAYER_GRAV : ℚ
  PLAYER_ACC : ℚ
  PLAYER_FRICTION : ℚ
  PLAYER_JUMP_VEL : ℚ
  JUMP_THRESHOLD : ℚ
  PLAYER_RUN_FREQ : Int
  PLAYER_IDLE_FREQ : Int
  deriving DecidableEq, Repr

/-- The environment a `Player` reads: its loaded animation frame
sequences and the terrain sprite groups (each terrain sprite reduced to
its rect, which is all `spritecollide` consults). -/
structure Env where
  standing_frames_r : List Img
  standing_frames_l : List Img
  run_frames_r : List Img
  run_frames_l : List Img
  platforms : List Rect
  bases : List Rect
  deriving DecidableEq, Repr

/-- The mutable attributes of a `Player` sprite. -/
structure PlayerState where
  running : Bool
  jumping : Bool
  current_frame : Nat
  last_update : Int
  pos : Vec2
  vel : Vec2
  acc : Vec2
  image : Img
  rect : Rect
  deriving DecidableEq, Repr

/-- `a.colliderect(b)` as pygame computes it: strict overlap on both
axes (touching edges do not collide). -/
def collideRect (a b : Rect) : Bool :=
  decide (a.x < b.x + b.w) && decide (a.x + a.w > b.x) &&
    decide (a.y < b.y + b.h) && decide (a.y + a.h > b.y)

/-- The probe rect `Player.jump` tests: the player's rect shifted 2
pixels rightward (`self.rect.x += 2` before the collision queries,
undone afterwards). -/
def probeRect (r : Rect) : Rect := { r with x := r.x + 2 }

/-- The common tail of every frame-advance branch in `Player.animate`:
store the new timestamp and frame index, select the image, and replace
the rect by the image's rect re-anchored at the saved bottom
(`self.rect = self.image.get_rect(); self.rect.bottom = bottom`). -/
def frameAdvanced (s : PlayerState) (now : Int) (cf : Nat) (img : Img) : PlayerState :=
  { s with
      last_update := now
      current_frame := cf
      image := img
      rect := { x := 0, y := s.rect.bottom - img.h, w := img.w, h := img.h } }

namespace Player

/-- `Player.jump`: probe the platform and base groups with the rect
shifted 2 pixels rightward (the shift is undone, so the rect is
unchanged); if either probe hit and the player is not already jumping,
start the jump. -/
def jump (cfg : Cfg) (env : Env) (s : PlayerState) : PlayerState :=
  let plat_hits := env.platforms.filter (fun p => collideRect (probeRect s.rect) p)
  let base_hits := env.bases.filter (fun p => collideRect (probeRect s.rect) p)
  let hits := !plat_hits.isEmpty || !base_hits.isEmpty
  if hits && !s.jumping then
    { s with jumping := true, vel := { s.vel with y := cfg.PLAYER_JUMP_VEL * (-1) } }
  else s

/-- `Player.jump_cut`: while jumping, clamp an upward velocity that is
more negative than `-JUMP_THRESHOLD` up to exactly that value. -/
def jump_cut (cfg : Cfg) (s : PlayerState) : PlayerState :=
  if s.jumping then
    if s.vel.y < cfg.JUMP_THRESHOLD * (-1) then
      { s with vel := { s.vel with y := cfg.JUMP_THRESHOLD * (-1) } }
    else s
  else s

/-- The run branch of `Player.animate`: if running and the run interval
has elapsed, advance the frame index modulo `len(run_frames_l)`
(raising `ZeroDivisionError` when that list is empty, as Python's `%`
does), pick the facing by the sign of `vel.x`, and replace the rect by
the new image's rect re-anchored at the saved bottom. -/
def runBranch (cfg : Cfg) (env : Env) (now : Int) (s : PlayerState) :
    Except PyError PlayerState :=
  if s.running && decide (now - s.last_update > cfg.PLAYER_RUN_FREQ) then
    if env.run_frames_l.length = 0 then .error .zeroDivisionError
    else
      let cf := (s.current_frame + 1) % env.run_frames_l.length
      let imgQ := if s.vel.x > 0 then env.run_frames_r.get? cf
                  else env.run_frames_l.get? cf
      match imgQ with
      | none => .error .indexError
      | some img => .ok (frameAdvanced s now cf img)
  else .ok s

/-- The idle branch of `Player.animate`: if neither jumping nor running
and the idle interval has elapsed, advance the frame index modulo
`len(standing_frames_r)` (raising `ZeroDivisionError` when empty), pick
the facing by the sign of `pos.x`, and re-anchor the bottom. -/
def idleBranch (cfg : Cfg) (env : Env) (now : Int) (s : PlayerState) :
    Except PyError PlayerState :=
  if !s.jumping && !s.running && decide (now - s.last_update > cfg.PLAYER_IDLE_FREQ) then
    if env.standing_frames_r.length = 0 then .error .zeroDivisionError
    else
      let cf := (s.current_frame + 1) % env.standing_frames_r.length
      let imgQ := if s.pos.x > 0 then env.standing_frames_r.get? cf
                  else env.standing_frames_l.get? cf
      match imgQ with
      | none => .error .indexError
      | some img => .ok (frameAdvanced s now cf img)
  else .ok s

/-- `Player.animate`: derive `running` from `vel.x`, then run the run
branch and the idle branch in source order. -/
def animate (cfg : Cfg) (env : Env) (now : Int) (s0 : PlayerState) :
    Except PyError PlayerState :=
  let s1 := { s0 with running := decide (s0.vel.x ≠ 0) }
  (runBranch cfg env now s1).bind (idleBranch cfg env now)

/-- The keyboard step of `Player.update`: left pressed overwrites
`acc.x` with `PLAYER_ACC * -1`; otherwise right pressed overwrites it
with `PLAYER_ACC`. -/
def applyInput (cfg : Cfg) (keys : Keys) (a : Vec2) : Vec2 :=
  if keys.left then { a with x := cfg.PLAYER_ACC * (-1) }
  else if keys.right then { a with x := cfg.PLAYER_ACC }
  else a

/-- The physics part of `Player.update` (everything after the `animate`
call): gravity, input, friction, velocity integration with the 0.1
deadzone snap, position integration with the `vel + 0.5 * acc` term,
left-wall clamp, and rect resynchronization. -/
def physicsStep (cfg : Cfg) (keys : Keys) (s1 : PlayerState) : PlayerState :=
  let acc1 : Vec2 := ⟨0, cfg.PLAYER_GRAV⟩
  let acc2 := applyInput cfg keys acc1
  let acc3 := { acc2 with x := acc2.x + s1.vel.x * cfg.PLAYER_FRICTION * (-1) }
  let vel1 : Vec2 := ⟨s1.vel.x + acc3.x, s1.vel.y + acc3.y⟩
  let vel2 := if |vel1.x| < (0.1 : ℚ) then { vel1 with x := (0 : ℚ) } else vel1
  let pos1 : Vec2 := ⟨s1.pos.x + vel2.x + (0.5 : ℚ) * acc3.x,
                      s1.pos.y + vel2.y + (0.5 : ℚ) * acc3.y⟩
  let pos2 := if s1.rect.left < 0 then { pos1 with x := ((s1.rect.left + 50 : Int) : ℚ) }
              else pos1
  let rect2 := s1.rect.setMidbottom pos2
  { s1 with acc := acc3, vel := vel2, pos := pos2, rect := rect2 }

/-- `Player.update`: animate, then the physics step. -/
def update (cfg : Cfg) (env : Env) (keys : Keys) (now : Int) (s : PlayerState) :
    Except PyError PlayerState :=
  (animate cfg env now s).map (physicsStep cfg keys)

/-- The x-velocity step of `Player.update` when no directional key is
held, in isolation: friction acceleration, velocity integration, and
the deadzone snap. -/
def frictionStep (cfg : Cfg) (vx : ℚ) : ℚ :=
  let ax := (0 : ℚ) + vx * cfg.PLAYER_FRICTION * (-1)
  let v1 := vx + ax
  if |v1| < (0.1 : ℚ) then 0 else v1

/-- `n` ticks of the x-velocity step. -/
def frictionIter (cfg : Cfg) : Nat → ℚ → ℚ
  | 0, v => v
  | n + 1, v => frictionIter cfg n (frictionStep cfg v)

end Player

/-- The mutable attributes of a `Slime` sprite that its animation
reads and writes. -/
structure SlimeState where
  current_frame : Nat
  last_update : Int
  image : Img
  deriving DecidableEq, Repr

namespace Slime

/-- `Slime.animate`: every 180 ms advance the walk cycle modulo
`len(walk_images)` (raising `ZeroDivisionError` when that list is
empty) and select the frame. -/
def animate (walk_images : List Img) (now : Int) (s : SlimeState) :
    Except PyError SlimeState :=
  if decide (now - s.last_update > 180) then
    if walk_images.length = 0 then .error .zeroDivisionError
    else
      let cf := (s.current_frame + 1) % walk_images.length
      match walk_images.get? cf with
      | none => .error .indexError
      | some img => .ok { s with last_update := now, current_frame := cf, image := img }
  else .ok s

end Slime

/-- A call into the player sprite's public per-frame interface, used to
talk about arbitrary call sequences. -/
inductive POp where
  | update (keys : Keys) (now : Int)
  | animate (now : Int)
  | jump
  | jumpCut
  deriving DecidableEq, Repr

/-- Dispatch one interface call on a player state. -/
def applyOp (cfg : Cfg) (env : Env) : POp → PlayerState → Except PyError PlayerState
  | .update keys now, s => Player.update cfg env keys now s
  | .animate now, s => Player.animate cfg env now s
  | .jump, s => .ok (Player.jump cfg env s)
  | .jumpCut, s => .ok (Player.jump_cut cfg s)

/-- Run a sequence of interface calls, stopping at the first raised
exception. -/
def runOps (cfg : Cfg) (env : Env) : List POp → PlayerState → Except PyError PlayerState
  | [], s => .ok s
  | op :: ops, s => (applyOp cfg env op s).bind (runOps cfg env ops)

/-- `SpriteSheet.get_image`: cut the `(x, y, width, height)` region out
of the sheet and rescale it to `(int(width * scale), int(height * scale))`
(Python `int()` truncation).  The pixel content is abstracted away; the
size is what the contract speaks about. -/
def get_image (x y width height : Int) (scale : ℚ) : Img :=
  ⟨truncQ ((width : ℚ) * scale), truncQ ((height : ℚ) * scale)⟩

/-! ### Concrete fixtures used by witnesses and counterexamples -/

/-- A sample configuration.  Gravity `0.8` and friction `0.12` are the
values the spec records for the settings module (which is not among the
sources); the remaining values are arbitrary sample constants. -/
def cfg0 : Cfg :=
  { PLAYER_GRAV := 0.8, PLAYER_ACC := 0.5, PLAYER_FRICTION := 0.12,
    PLAYER_JUMP_VEL := 20, JUMP_THRESHOLD := 3,
    PLAYER_RUN_FREQ := 100, PLAYER_IDLE_FREQ := 350 }

/-- A sample environment with one idle frame and two run frames. -/
def env0 : Env :=
  { standing_frames_r := [⟨12, 18⟩], standing_frames_l := [⟨12, 18⟩],
    run_frames_r := [⟨14, 18⟩, ⟨15, 17⟩], run_frames_l := [⟨14, 18⟩, ⟨15, 17⟩],
    platforms := [], bases := [] }

/-- `env0` plus one platform, for exercising the jump probe. -/
def envJ : Env := { env0 with platforms := [⟨30, 80, 100, 20⟩] }

/-- An environment whose frame lists are all empty. -/
def envE : Env :=
  { standing_frames_r := [], standing_frames_l := [], run_frames_r := [],
    run_frames_l := [], platforms := [], bases := [] }

/-- Airborne, motionless player whose rect pokes 1 pixel past the left
edge; its width 30 makes the left-wall clamp land at 34, not 50. -/
def sA : PlayerState :=
  { running := false, jumping := true, current_frame := 0, last_update := 0,
    pos := ⟨10, 100⟩, vel := ⟨0, 0⟩, acc := ⟨0, 0⟩, image := ⟨12, 18⟩,
    rect := ⟨-1, 60, 30, 40⟩ }

/-- Like `sA` but 200 pixels wide: the clamp leaves the left edge at
`-51`, still negative. -/
def sB : PlayerState := { sA with rect := ⟨-1, 60, 200, 40⟩ }

/-- An airborne player moving upward fast, for exercising jump-cut. -/
def sJc : PlayerState := { sA with vel := ⟨0, -10⟩ }

/-- The physics-scenario player: `pos = (40, 600 - 50)`, at rest. -/
def sC : PlayerState :=
  { running := false, jumping := false, current_frame := 0, last_update := 0,
    pos := ⟨40, 550⟩, vel := ⟨0, 0⟩, acc := ⟨0, 0⟩, image := ⟨12, 18⟩,
    rect := ⟨34, 532, 12, 18⟩ }

/-- A running airborne player about to get a new run frame. -/
def sW : PlayerState :=
  { running := false, jumping := true, current_frame := 0, last_update := 0,
    pos := ⟨40, 550⟩, vel := ⟨2, 0⟩, acc := ⟨0, 0⟩, image := ⟨12, 18⟩,
    rect := ⟨34, 532, 12, 18⟩ }

/-- The state `Player.animate cfg0 env0 500 sW` produces. -/
def sWres : PlayerState :=
  { running := true, jumping := true, current_frame := 1, last_update := 500,
    pos := ⟨40, 550⟩, vel := ⟨2, 0⟩, acc := ⟨0, 0⟩, image := ⟨15, 17⟩,
    rect := ⟨0, 533, 15, 17⟩ }

/-- A grounded player standing just left of `envJ`'s platform, whose
2-pixel probe overlaps it. -/
def sG : PlayerState :=
  { running := false, jumping := false, current_frame := 0, last_update := 0,
    pos := ⟨43, 82⟩, vel := ⟨0, 0⟩, acc := ⟨0, 0⟩, image := ⟨12, 18⟩,
    rect := ⟨28, 70, 30, 12⟩ }

/-- A player whose frame-advance would divide by the empty run list. -/
def sE : PlayerState :=
  { running := false, jumping := false, current_frame := 0, last_update := 0,
    pos := ⟨40, 100⟩, vel := ⟨1, 0⟩, acc := ⟨0, 0⟩, image := ⟨12, 18⟩,
    rect := ⟨0, 0, 12, 18⟩ }

/-- Like `sE` but idle, so the idle branch is the one that divides. -/
def sE2 : PlayerState := { sE with vel := ⟨0, 0⟩ }

/-- A slime about to advance its walk cycle. -/
def slW : SlimeState := { current_frame := 0, last_update := 0, image := ⟨75, 42⟩ }

/-! ### Helper lemmas -/

/-- Every frame advance restores the saved bottom edge. -/
theorem frameAdvanced_bottom (s : PlayerState) (now : Int) (cf : Nat) (img : Img) :
    (frameAdvanced s now cf img).rect.bottom = s.rect.bottom := by
  simp [frameAdvanced, Rect.bottom]

/-- A frame advance only touches the animation bookkeeping fields. -/
theorem frameAdvanced_fields (s : PlayerState) (now : Int) (cf : Nat) (img : Img) :
    (frameAdvanced s now cf img).jumping = s.jumping ∧
      (frameAdvanced s now cf img).running = s.running ∧
      (frameAdvanced s now cf img).pos = s.pos ∧
      (frameAdvanced s now cf img).vel = s.vel ∧
      (frameAdvanced s now cf img).acc = s.acc := by
  simp [frameAdvanced]

/-- A successful run branch returns the state unchanged or a frame
advance of it. -/
theorem runBranch_cases (cfg : Cfg) (env : Env) (now : Int) (s t : PlayerState)
    (h : Player.runBranch cfg env now s = .ok t) :
    t = s ∨ ∃ cf img, t = frameAdvanced s now cf img := by
  unfold Player.runBranch at h
  split at h
  · split at h
    · exact absurd h (by simp)
    · dsimp only at h
      split at h
      · exact absurd h (by simp)
      · rename_i img heq
        injection h with h
        exact Or.inr ⟨_, img, h.symm⟩
  · injection h with h
    exact Or.inl h.symm

/-- A successful idle branch returns the state unchanged or a frame
advance of it. -/
theorem idleBranch_cases (cfg : Cfg) (env : Env) (now : Int) (s t : PlayerState)
    (h : Player.idleBranch cfg env now s = .ok t) :
    t = s ∨ ∃ cf img, t = frameAdvanced s now cf img := by
  unfold Player.idleBranch at h
  split at h
  · split at h
    · exact absurd h (by simp)
    · dsimp only at h
      split at h
      · exact absurd h (by simp)
      · rename_i img heq
        injection h with h
        exact Or.inr ⟨_, img, h.symm⟩
  · injection h with h
    exact Or.inl h.symm

/-- Inversion for a successful `Except.bind`. -/
theorem bind_ok {α β : Type} (e : Except PyError α) (f : α → Except PyError β) (b : β)
    (h : e.bind f = .ok b) : ∃ a, e = .ok a ∧ f a = .ok b := by
  cases e with
  | error err => exact absurd h (by simp [Except.bind])
  | ok a => exact ⟨a, rfl, h⟩

/-- Inversion for a successful `Except.map`. -/
theorem map_ok {α β : Type} (g : α → β) (e : Except PyError α) (b : β)
    (h : e.map g = .ok b) : ∃ a, e = .ok a ∧ b = g a := by
  cases e with
  | error err => exact absurd h (by simp [Except.map])
  | ok a =>
    simp only [Except.map] at h
    injection h with h
    exact ⟨a, rfl, h.symm⟩

/-- A successful `Player.animate` call is the `running` reassignment
followed by zero, one, or two frame advances. -/
theorem animate_cases (cfg : Cfg) (env : Env) (now : Int) (s t : PlayerState)
    (h : Player.animate cfg env now s = .ok t) :
    ∃ u v, u = { s with running := decide (s.vel.x ≠ 0) } ∧
      (v = u ∨ ∃ cf img, v = frameAdvanced u now cf img) ∧
      (t = v ∨ ∃ cf img, t = frameAdvanced v now cf img) := by
  unfold Player.animate at h
  obtain ⟨v, hv, ht⟩ := bind_ok _ _ _ h
  exact ⟨_, v, rfl, runBranch_cases cfg env now _ v hv, idleBranch_cases cfg env now v t ht⟩

/-- `Player.animate` never touches the physics state, the jump flag, or
the rect's bottom edge. -/
theorem animate_inv (cfg : Cfg) (env : Env) (now : Int) (s t : PlayerState)
    (h : Player.animate cfg env now s = .ok t) :
    t.jumping = s.jumping ∧ t.pos = s.pos ∧ t.vel = s.vel ∧ t.acc = s.acc ∧
      t.rect.bottom = s.rect.bottom := by
  obtain ⟨u, v, hu, hv, ht⟩ := animate_cases cfg env now s t h
  subst hu
  rcases hv with rfl | ⟨cf, img, rfl⟩ <;> rcases ht with rfl | ⟨cf2, img2, rfl⟩ <;>
    simp [frameAdvanced, Rect.bottom]

/-! ### Claim theorems -/

/-- C8: across any `Player.animate` call that succeeds (whether the run
branch, the idle branch, or neither fired), the rect's bottom edge
after the image and rect are replaced equals the bottom edge before. -/
theorem claim_C8_bottom_anchor (cfg : Cfg) (env : Env) (now : Int) (s t : PlayerState)
    (h : Player.animate cfg env now s = .ok t) :
    t.rect.bottom = s.rect.bottom :=
  (animate_inv cfg env now s t h).2.2.2.2

/-- C8 witness: a concrete animate call whose run branch advances the
frame (image size changes from 12×18 to 15×17) keeps `rect.bottom`. -/
theorem claim_C8_witness : sWres.rect.bottom = sW.rect.bottom :=
  claim_C8_bottom_anchor cfg0 env0 500 sW sWres rfl

/-- C5: `Player.jump_cut` rewrites the state exactly when the player is
jumping with `vel.y` more negative than `-JUMP_THRESHOLD`, setting
`vel.y` to exactly `-JUMP_THRESHOLD`; otherwise it is a no-op; and (for
a nonnegative threshold) it never increases the magnitude of the
velocity. -/
theorem claim_C5_jump_cut (cfg : Cfg) (s : PlayerState) :
    (s.jumping = true → s.vel.y < -cfg.JUMP_THRESHOLD →
      Player.jump_cut cfg s = { s with vel := { s.vel with y := -cfg.JUMP_THRESHOLD } })
    ∧ (¬(s.jumping = true ∧ s.vel.y < -cfg.JUMP_THRESHOLD) → Player.jump_cut cfg s = s)
    ∧ (0 ≤ cfg.JUMP_THRESHOLD → |(Player.jump_cut cfg s).vel.y| ≤ |s.vel.y|) := by
  have hneg : cfg.JUMP_THRESHOLD * (-1) = -cfg.JUMP_THRESHOLD := by ring
  refine ⟨?_, ?_, ?_⟩
  · intro hj hv
    unfold Player.jump_cut
    rw [hneg, if_pos hj, if_pos hv]
  · intro hnot
    unfold Player.jump_cut
    by_cases hj : s.jumping = true
    · rw [hneg, if_pos hj]
      by_cases hv : s.vel.y < -cfg.JUMP_THRESHOLD
      · exact absurd ⟨hj, hv⟩ hnot
      · rw [if_neg hv]
    · rw [if_neg hj]
  · intro hthr
    unfold Player.jump_cut
    by_cases hj : s.jumping = true
    · rw [hneg, if_pos hj]
      by_cases hv : s.vel.y < -cfg.JUMP_THRESHOLD
      · rw [if_pos hv]
        have hvneg : s.vel.y < 0 := by linarith
        show |(-cfg.JUMP_THRESHOLD)| ≤ |s.vel.y|
        rw [abs_neg, abs_of_nonneg hthr, abs_of_neg hvneg]
        linarith
      · rw [if_neg hv]
    · rw [if_neg hj]

/-- C5 witness: with threshold 3, a jumping player at `vel.y = -10` is
clamped to `-3`; a grounded player is untouched; the magnitude shrank. -/
theorem claim_C5_witness :
    Player.jump_cut cfg0 sJc = { sJc with vel := { sJc.vel with y := -cfg0.JUMP_THRESHOLD } }
    ∧ Player.jump_cut cfg0 sC = sC
    ∧ |(Player.jump_cut cfg0 sJc).vel.y| ≤ |sJc.vel.y| :=
  ⟨(claim_C5_jump_cut cfg0 sJc).1 rfl (by decide),
   (claim_C5_jump_cut cfg0 sC).2.1 (by decide),
   (claim_C5_jump_cut cfg0 sJc).2.2 (by decide)⟩

/-- C10: the keyboard step of `Player.update`: left held gives
`-PLAYER_ACC`, right without left gives `PLAYER_ACC`, neither leaves
the 0 set by the gravity reset, and both held gives the left branch
(leftward acceleration), right being ignored. -/
theorem claim_C10_input (cfg : Cfg) (keys : Keys) :
    (keys.left = true → (Player.applyInput cfg keys ⟨0, cfg.PLAYER_GRAV⟩).x = -cfg.PLAYER_ACC)
    ∧ (keys.left = false → keys.right = true →
        (Player.applyInput cfg keys ⟨0, cfg.PLAYER_GRAV⟩).x = cfg.PLAYER_ACC)
    ∧ (keys.left = false → keys.right = false →
        (Player.applyInput cfg keys ⟨0, cfg.PLAYER_GRAV⟩).x = 0)
    ∧ (keys.left = true → keys.right = true →
        (Player.applyInput cfg keys ⟨0, cfg.PLAYER_GRAV⟩).x = -cfg.PLAYER_ACC) := by
  refine ⟨?_, ?_, ?_, ?_⟩
  · intro hl
    simp [Player.applyInput, hl]
  · intro hl hr
    simp [Player.applyInput, hl, hr]
  · intro hl hr
    simp [Player.applyInput, hl, hr]
  · intro hl hr
    simp [Player.applyInput, hl]

/-- C10 witness: the four key snapshots at the sample configuration. -/
theorem claim_C10_witness :
    (Player.applyInput cfg0 ⟨true, false⟩ ⟨0, cfg0.PLAYER_GRAV⟩).x = -cfg0.PLAYER_ACC
    ∧ (Player.applyInput cfg0 ⟨false, true⟩ ⟨0, cfg0.PLAYER_GRAV⟩).x = cfg0.PLAYER_ACC
    ∧ (Player.applyInput cfg0 noKeys ⟨0, cfg0.PLAYER_GRAV⟩).x = 0
    ∧ (Player.applyInput cfg0 ⟨true, true⟩ ⟨0, cfg0.PLAYER_GRAV⟩).x = -cfg0.PLAYER_ACC :=
  ⟨(claim_C10_input cfg0 ⟨true, false⟩).1 rfl,
   (claim_C10_input cfg0 ⟨false, true⟩).2.1 rfl rfl,
   (claim_C10_input cfg0 noKeys).2.2.1 rfl rfl,
   (claim_C10_input cfg0 ⟨true, true⟩).2.2.2 rfl rfl⟩

/-- C2: `Player.jump` while airborne is a no-op on the whole state; while
grounded with the 2-pixel-right probe overlapping some platform or base,
it sets `vel.y = -PLAYER_JUMP_VEL` and `jumping = true`. -/
theorem claim_C2_jump_gating (cfg : Cfg) (env : Env) (s : PlayerState) :
    (s.jumping = true → Player.jump cfg env s = s)
    ∧ (s.jumping = false →
        (∃ p, (p ∈ env.platforms ∨ p ∈ env.bases) ∧ collideRect (probeRect s.rect) p = true) →
        (Player.jump cfg env s).vel.y = -cfg.PLAYER_JUMP_VEL ∧
          (Player.jump cfg env s).jumping = true) := by
  constructor
  · intro hj
    unfold Player.jump
    simp [hj]
  · rintro hj ⟨p, hp, hcol⟩
    have hits : (!(env.platforms.filter (fun q => collideRect (probeRect s.rect) q)).isEmpty
        || !(env.bases.filter (fun q => collideRect (probeRect s.rect) q)).isEmpty) = true := by
      rcases hp with hp | hp
      · have hm : p ∈ env.platforms.filter (fun q => collideRect (probeRect s.rect) q) :=
          List.mem_filter.mpr ⟨hp, hcol⟩
        cases hfe : env.platforms.filter (fun q => collideRect (probeRect s.rect) q) with
        | nil => exact absurd hfe (List.ne_nil_of_mem hm)
        | cons a l => simp [hfe]
      · have hm : p ∈ env.bases.filter (fun q => collideRect (probeRect s.rect) q) :=
          List.mem_filter.mpr ⟨hp, hcol⟩
        cases hfe : env.bases.filter (fun q => collideRect (probeRect s.rect) q) with
        | nil => exact absurd hfe (List.ne_nil_of_mem hm)
        | cons a l => simp [hfe]
    unfold Player.jump
    dsimp only
    rw [hits]
    simp [hj]

/-- C2 witness: the grounded player `sG` whose probe overlaps `envJ`'s
platform starts a jump with `vel.y = -20`; the airborne player `sA` is
untouched. -/
theorem claim_C2_witness :
    ((Player.jump cfg0 envJ sG).vel.y = -cfg0.PLAYER_JUMP_VEL ∧
      (Player.jump cfg0 envJ sG).jumping = true)
    ∧ Player.jump cfg0 envJ sA = sA :=
  ⟨(claim_C2_jump_gating cfg0 envJ sG).2 rfl
      ⟨⟨30, 80, 100, 20⟩, Or.inl (by simp [envJ, env0]), by decide⟩,
   (claim_C2_jump_gating cfg0 envJ sA).1 rfl⟩

/-- The physics step never touches the jump flag. -/
theorem physicsStep_jumping (cfg : Cfg) (keys : Keys) (s : PlayerState) :
    (Player.physicsStep cfg keys s).jumping = s.jumping := rfl

/-- `Player.jump` keeps the jump flag set once it is set. -/
theorem jump_jumping (cfg : Cfg) (env : Env) (s : PlayerState) (hj : s.jumping = true) :
    (Player.jump cfg env s).jumping = true := by
  unfold Player.jump
  dsimp only
  split
  · rfl
  · exact hj

/-- `Player.jump_cut` never touches the jump flag. -/
theorem jump_cut_jumping (cfg : Cfg) (s : PlayerState) :
    (Player.jump_cut cfg s).jumping = s.jumping := by
  unfold Player.jump_cut
  split
  · split <;> rfl
  · rfl

/-- Any single successful interface call keeps the jump flag set. -/
theorem applyOp_jumping (cfg : Cfg) (env : Env) (op : POp) (s t : PlayerState)
    (hj : s.jumping = true) (h : applyOp cfg env op s = .ok t) : t.jumping = true := by
  cases op with
  | update keys now =>
    obtain ⟨s1, h1, h2⟩ := map_ok _ _ _ h
    have h3 := (animate_inv cfg env now s s1 h1).1
    subst h2
    rw [physicsStep_jumping, h3, hj]
  | animate now =>
    exact (animate_inv cfg env now s t h).1.trans hj
  | jump =>
    injection h with h
    rw [← h]
    exact jump_jumping cfg env s hj
  | jumpCut =>
    injection h with h
    rw [← h, jump_cut_jumping, hj]

/-- C6: once `jumping` is true, no sequence of `update`, `animate`,
`jump`, and `jump_cut` calls ever clears it: there is no landing
transition in the module. -/
theorem claim_C6_jumping_latch (cfg : Cfg) (env : Env) (ops : List POp) (s t : PlayerState)
    (hj : s.jumping = true) (h : runOps cfg env ops s = .ok t) : t.jumping = true := by
  induction ops generalizing s with
  | nil =>
    unfold runOps at h
    injection h with h
    rw [← h]
    exact hj
  | cons op ops ih =>
    unfold runOps at h
    obtain ⟨u, h1, h2⟩ := bind_ok _ _ _ h
    exact ih u (applyOp_jumping cfg env op s u hj h1) h2

/-- C6 witness: a jump call followed by a jump-cut call on the airborne
player `sA` leaves `jumping` true. -/
theorem claim_C6_witness : (Player.jump_cut cfg0 (Player.jump cfg0 env0 sA)).jumping = true :=
  claim_C6_jumping_latch cfg0 env0 [POp.jump, POp.jumpCut] sA
    (Player.jump_cut cfg0 (Player.jump cfg0 env0 sA)) rfl rfl

/-- C7 counterexample: with empty frame sequences the frame advance in
`Player.animate` (and `Slime.animate`) raises `ZeroDivisionError` — not
the `ConfigurationError` the claim names, which nothing in the code
defines or raises. -/
theorem claim_C7_counterexample :
    Player.animate cfg0 envE 1000 sE = .error .zeroDivisionError
    ∧ Player.animate cfg0 envE 1000 sE ≠ .error .configurationError
    ∧ Slime.animate [] 1000 slW = .error .zeroDivisionError
    ∧ Slime.animate [] 1000 slW ≠ .error .configurationError := by
  refine ⟨rfl, ?_, rfl, ?_⟩
  · intro h
    rw [show Player.animate cfg0 envE 1000 sE = Except.error PyError.zeroDivisionError
      from rfl] at h
    injection h with h
    cases h
  · intro h
    rw [show Slime.animate [] 1000 slW = Except.error PyError.zeroDivisionError from rfl] at h
    injection h with h
    cases h

/-- C7 (amended): advancing the frame index over an empty frame
sequence fails fast — but with Python's `ZeroDivisionError` from the
`% len(...)`, not a `ConfigurationError`. -/
theorem claim_C7_empty_frames (cfg : Cfg) (env : Env) (now : Int) (s : PlayerState)
    (sl : SlimeState) (walk : List Img) :
    (s.vel.x ≠ 0 → now - s.last_update > cfg.PLAYER_RUN_FREQ → env.run_frames_l = [] →
      Player.animate cfg env now s = .error .zeroDivisionError)
    ∧ (s.vel.x = 0 → s.jumping = false → now - s.last_update > cfg.PLAYER_IDLE_FREQ →
        env.standing_frames_r = [] →
        Player.animate cfg env now s = .error .zeroDivisionError)
    ∧ (now - sl.last_update > 180 → walk = [] →
        Slime.animate walk now sl = .error .zeroDivisionError) := by
  refine ⟨?_, ?_, ?_⟩
  · intro hv hn he
    unfold Player.animate Player.runBranch
    simp [hv, hn, he, Except.bind]
  · intro hv hj hn he
    unfold Player.animate Player.runBranch Player.idleBranch
    simp [hv, hj, hn, he, Except.bind]
  · intro hn hw
    unfold Slime.animate
    simp [hn, hw]

/-- C7 witness: concrete empty-sequence states for the run branch, the
idle branch, and the slime walk cycle. -/
theorem claim_C7_witness :
    Player.animate cfg0 envE 1000 sE = .error .zeroDivisionError
    ∧ Player.animate cfg0 envE 1000 sE2 = .error .zeroDivisionError
    ∧ Slime.animate [] 1000 slW = .error .zeroDivisionError :=
  ⟨(claim_C7_empty_frames cfg0 envE 1000 sE slW []).1 (by decide) (by decide) rfl,
   (claim_C7_empty_frames cfg0 envE 1000 sE2 slW []).2.1 (by decide) rfl (by decide) rfl,
   (claim_C7_empty_frames cfg0 envE 1000 sE slW []).2.2 (by decide) rfl⟩

/-- C9 counterexample: `get_image` with a 7×7 crop at scale `2/5`
returns a 2×2 image (`int(2.8) = 2`), while rounding would give 3. -/
theorem claim_C9_counterexample :
    (get_image 0 0 7 7 (2/5)).w = 2 ∧ round ((7 : ℚ) * (2/5)) = 3 ∧
      (get_image 0 0 7 7 (2/5)).w ≠ round ((7 : ℚ) * (2/5)) := by
  have h1 : (get_image 0 0 7 7 (2/5)).w = 2 := by with_unfolding_all rfl
  have h2 : round ((7 : ℚ) * (2/5)) = 3 := by norm_num [round_eq, Int.floor_eq_iff]
  refine ⟨h1, h2, ?_⟩
  rw [h1, h2]
  decide

/-- C9 (amended): `get_image` returns an image of size
`(int(width*scale), int(height*scale))` — Python `int()` truncation,
which for nonnegative crops and scales is the floor, not rounding. -/
theorem claim_C9_size (x y width height : Int) (scale : ℚ)
    (hw : 0 ≤ width) (hh : 0 ≤ height) (hs : 0 ≤ scale) :
    (get_image x y width height scale).w = ⌊(width : ℚ) * scale⌋ ∧
      (get_image x y width height scale).h = ⌊(height : ℚ) * scale⌋ := by
  have h1 : (0 : ℚ) ≤ (width : ℚ) * scale :=
    mul_nonneg (by exact_mod_cast hw) hs
  have h2 : (0 : ℚ) ≤ (height : ℚ) * scale :=
    mul_nonneg (by exact_mod_cast hh) hs
  constructor
  · show truncQ ((width : ℚ) * scale) = ⌊(width : ℚ) * scale⌋
    unfold truncQ
    rw [if_neg (not_lt.mpr h1)]
  · show truncQ ((height : ℚ) * scale) = ⌊(height : ℚ) * scale⌋
    unfold truncQ
    rw [if_neg (not_lt.mpr h2)]

/-- C9 witness: the stone-platform crop `(0, 96, 380, 94)` at the
default scale `0.5` comes out 190×47. -/
theorem claim_C9_witness :
    (get_image 0 96 380 94 (1/2)).w = ⌊(380 : ℚ) * (1/2)⌋ ∧
      (get_image 0 96 380 94 (1/2)).h = ⌊(94 : ℚ) * (1/2)⌋ :=
  claim_C9_size 0 96 380 94 (1/2) (by decide) (by decide) (by norm_num)

/-- Truncation of an integer-valued rational is the integer itself. -/
theorem truncQ_intCast (n : Int) : truncQ ((n : ℚ)) = n := by
  unfold truncQ
  split
  · exact Int.ceil_intCast n
  · exact Int.floor_intCast n

/-- C1 counterexample: for the 30-wide player `sA` whose rect's left
edge is -1, one `Player.update` leaves `rect.left = 34`, not 50; for
the 200-wide `sB` it leaves `rect.left = -51`, still negative. -/
theorem claim_C1_counterexample :
    sA.rect.left < 0
    ∧ (Player.update cfg0 env0 noKeys 0 sA).map (fun t => t.rect.left) = .ok 34
    ∧ (34 : Int) ≠ 50
    ∧ sB.rect.left < 0
    ∧ (Player.update cfg0 env0 noKeys 0 sB).map (fun t => t.rect.left) = .ok (-51)
    ∧ (-51 : Int) < 0 :=
  ⟨by decide, by with_unfolding_all rfl, by decide,
   by decide, by with_unfolding_all rfl, by decide⟩

/-- C1 (amended): when the rect's left edge is negative at the clamp
step, `pos.x` is set to `rect.left + 50`, so after the rect is
resynchronized from `position` the rect's center-x is `rect.left + 50`
and its left edge is `rect.left + 50 - w / 2` — in general not 50, and
still negative whenever the width exceeds `2 * (rect.left + 50)`. -/
theorem claim_C1_left_clamp (cfg : Cfg) (env : Env) (keys : Keys) (now : Int)
    (s s1 : PlayerState) (h1 : Player.animate cfg env now s = .ok s1)
    (hneg : s1.rect.left < 0) :
    (Player.update cfg env keys now s).map (fun t => (t.pos.x, t.rect.left)) =
      .ok (((s1.rect.left + 50 : Int) : ℚ), s1.rect.left + 50 - s1.rect.w / 2) := by
  unfold Player.update
  rw [h1]
  simp only [Except.map]
  unfold Player.physicsStep
  simp only [if_pos hneg]
  simp only [Rect.setMidbottom, Rect.left, truncQ_intCast]

/-- C1 witness: the amended clamp law at the concrete state `sA`
(left edge -1, width 30): `pos.x` becomes 49 and `rect.left` becomes
`-1 + 50 - 30 / 2 = 34`. -/
theorem claim_C1_witness :
    (Player.update cfg0 env0 noKeys 0 sA).map (fun t => (t.pos.x, t.rect.left)) =
      .ok (((sA.rect.left + 50 : Int) : ℚ), sA.rect.left + 50 - sA.rect.w / 2) :=
  claim_C1_left_clamp cfg0 env0 noKeys 0 sA sA rfl (by decide)

/-- The y components of the physics step, unconditionally: the keyboard
step, the deadzone snap, and the left-wall clamp only ever touch x. -/
theorem physicsStep_y (cfg : Cfg) (keys : Keys) (s1 : PlayerState) :
    (Player.physicsStep cfg keys s1).vel.y = s1.vel.y + cfg.PLAYER_GRAV ∧
      (Player.physicsStep cfg keys s1).pos.y =
        s1.pos.y + (s1.vel.y + cfg.PLAYER_GRAV) + (0.5 : ℚ) * cfg.PLAYER_GRAV := by
  unfold Player.physicsStep Player.applyInput
  dsimp only
  constructor <;> split_ifs <;> rfl

/-- C3 counterexample: at `H = 600` the scenario state `sC` steps to
`pos.y = 551.2 = H - 48.8`, while the claim's `H - 49.2` is `550.8`. -/
theorem claim_C3_counterexample :
    sC.pos = ⟨40, 600 - 50⟩ ∧ sC.vel = ⟨0, 0⟩ ∧ cfg0.PLAYER_GRAV = 0.8
    ∧ (Player.update cfg0 env0 noKeys 0 sC).map (fun t => t.pos.y) = .ok 551.2
    ∧ (551.2 : ℚ) ≠ 600 - 49.2 :=
  ⟨by with_unfolding_all rfl, rfl, rfl,
   by with_unfolding_all rfl, by with_unfolding_all decide⟩

/-- C3 (amended): from `pos = (40, H-50)`, `vel = (0,0)`, gravity 0.8
and no input, one `Player.update` tick gives `vel.y = 0.8` and
`pos.y = H - 50 + 0.8 + 0.4`, which is `H - 48.8` (not the claim's
`H - 49.2`). -/
theorem claim_C3_tick (cfg : Cfg) (env : Env) (keys : Keys) (now : Int) (H : ℚ)
    (s s1 : PlayerState)
    (hg : cfg.PLAYER_GRAV = 0.8)
    (hl : keys.left = false) (hr : keys.right = false)
    (hpos : s.pos = ⟨40, H - 50⟩) (hvel : s.vel = ⟨0, 0⟩)
    (h1 : Player.animate cfg env now s = .ok s1) :
    (Player.update cfg env keys now s).map (fun t => (t.vel.y, t.pos.y)) =
      .ok ((0.8 : ℚ), H - 50 + 0.8 + 0.4) ∧ H - 50 + 0.8 + 0.4 = H - 48.8 := by
  obtain ⟨hj, hp, hv, ha, hb⟩ := animate_inv cfg env now s s1 h1
  have hvy : s1.vel.y = 0 := by rw [hv, hvel]
  have hpy : s1.pos.y = H - 50 := by rw [hp, hpos]
  constructor
  · unfold Player.update
    rw [h1]
    simp only [Except.map]
    have h2 := (physicsStep_y cfg keys s1).1
    have h3 := (physicsStep_y cfg keys s1).2
    rw [h2, h3, hvy, hpy, hg]
    simp only [Except.ok.injEq, Prod.mk.injEq]
    constructor <;> norm_num
  · norm_num
    linarith

/-- C3 witness: the amended tick law at `H = 600` on the concrete
scenario state `sC`. -/
theorem claim_C3_witness :
    (Player.update cfg0 env0 noKeys 0 sC).map (fun t => (t.vel.y, t.pos.y)) =
      .ok ((0.8 : ℚ), 600 - 50 + 0.8 + 0.4) ∧
      (600 : ℚ) - 50 + 0.8 + 0.4 = 600 - 48.8 :=
  claim_C3_tick cfg0 env0 noKeys 0 600 sC sC rfl rfl rfl
    (by with_unfolding_all rfl) rfl rfl

/-- `Player.frictionStep` in closed form: multiply by `1 - friction`,
then snap to 0 inside the deadzone. -/
theorem frictionStep_eq (cfg : Cfg) (v : ℚ) :
    Player.frictionStep cfg v =
      if |v * (1 - cfg.PLAYER_FRICTION)| < (0.1 : ℚ) then 0
      else v * (1 - cfg.PLAYER_FRICTION) := by
  unfold Player.frictionStep
  have h : v + ((0 : ℚ) + v * cfg.PLAYER_FRICTION * (-1)) = v * (1 - cfg.PLAYER_FRICTION) := by
    ring
  dsimp only
  rw [h]

/-- Zero velocity is a fixed point of the friction step. -/
theorem frictionStep_zero (cfg : Cfg) : Player.frictionStep cfg 0 = 0 := by
  rw [frictionStep_eq]
  norm_num

/-- Zero velocity stays zero under iteration. -/
theorem frictionIter_zero (cfg : Cfg) (n : Nat) : Player.frictionIter cfg n 0 = 0 := by
  induction n with
  | zero => rfl
  | succ n ih =>
    show Player.frictionIter cfg n (Player.frictionStep cfg 0) = 0
    rw [frictionStep_zero]
    exact ih

/-- Unfolding the iteration from the right. -/
theorem frictionIter_succ (cfg : Cfg) (n : Nat) (v : ℚ) :
    Player.frictionIter cfg (n + 1) v = Player.frictionStep cfg (Player.frictionIter cfg n v) := by
  induction n generalizing v with
  | zero => rfl
  | succ n ih =>
    show Player.frictionIter cfg (n + 1) (Player.frictionStep cfg v) = _
    rw [ih]
    rfl

/-- After `n` ticks the x velocity is 0 or has decayed geometrically. -/
theorem frictionIter_form (cfg : Cfg) (n : Nat) (v : ℚ) :
    Player.frictionIter cfg n v = 0 ∨
      Player.frictionIter cfg n v = v * (1 - cfg.PLAYER_FRICTION) ^ n := by
  induction n generalizing v with
  | zero =>
    right
    simp [Player.frictionIter]
  | succ n ih =>
    rw [show Player.frictionIter cfg (n + 1) v
        = Player.frictionIter cfg n (Player.frictionStep cfg v) from rfl, frictionStep_eq]
    by_cases hc : |v * (1 - cfg.PLAYER_FRICTION)| < (0.1 : ℚ)
    · rw [if_pos hc, frictionIter_zero]
      exact Or.inl rfl
    · rw [if_neg hc]
      rcases ih (v * (1 - cfg.PLAYER_FRICTION)) with h0 | heq
      · exact Or.inl h0
      · right
        rw [heq]
        ring

/-- With friction strictly between 0 and 1, the deadzone snap turns the
geometric decay into exact termination. -/
theorem frictionIter_terminates (cfg : Cfg)
    (hf0 : 0 < cfg.PLAYER_FRICTION) (hf1 : cfg.PLAYER_FRICTION < 1)
    (v : ℚ) : ∃ n, Player.frictionIter cfg n v = 0 := by
  have hr0 : (0 : ℚ) < 1 - cfg.PLAYER_FRICTION := by linarith
  have hr1 : 1 - cfg.PLAYER_FRICTION < 1 := by linarith
  by_cases hv : v = 0
  · exact ⟨0, by rw [hv]; rfl⟩
  have hva : (0 : ℚ) < |v| := abs_pos.mpr hv
  obtain ⟨n, hn⟩ := exists_pow_lt_of_lt_one
    (show (0 : ℚ) < 0.1 / |v| by positivity) hr1
  have hlt : |v| * (1 - cfg.PLAYER_FRICTION) ^ n < 0.1 := by
    rw [lt_div_iff₀ hva] at hn
    linarith [hn, mul_comm ((1 - cfg.PLAYER_FRICTION) ^ n) |v|]
  refine ⟨n + 1, ?_⟩
  rcases frictionIter_form cfg n v with h0 | heq
  · rw [frictionIter_succ, h0, frictionStep_zero]
  · rw [frictionIter_succ, heq, frictionStep_eq]
    have hpow : (0 : ℚ) < (1 - cfg.PLAYER_FRICTION) ^ n := pow_pos hr0 n
    have habs : |v * (1 - cfg.PLAYER_FRICTION) ^ n * (1 - cfg.PLAYER_FRICTION)|
        = |v| * (1 - cfg.PLAYER_FRICTION) ^ n * (1 - cfg.PLAYER_FRICTION) := by
      rw [abs_mul, abs_mul, abs_pow, abs_of_pos hr0]
    rw [if_pos ?_]
    rw [habs]
    nlinarith [mul_pos hva hpow]

/-- With no directional key held, `Player.physicsStep`'s new `vel.x` is
exactly `Player.frictionStep` of the old one. -/
theorem physicsStep_vel_x (cfg : Cfg) (keys : Keys) (s1 : PlayerState)
    (hl : keys.left = false) (hr : keys.right = false) :
    (Player.physicsStep cfg keys s1).vel.x = Player.frictionStep cfg s1.vel.x := by
  unfold Player.physicsStep Player.applyInput Player.frictionStep
  dsimp only
  rw [hl, hr]
  simp only [Bool.false_eq_true, if_false]
  split <;> rfl

/-- C4: the x-velocity step of `Player.update` with no keys held is the
friction step, and with the spec's friction coefficient 0.12 iterating
it from any nonzero `velocity.x` reaches exactly 0 after finitely many
ticks. -/
theorem claim_C4_friction_convergence (cfg : Cfg) (keys : Keys) (s1 : PlayerState) (v : ℚ)
    (hf : cfg.PLAYER_FRICTION = 0.12) (hl : keys.left = false) (hr : keys.right = false)
    (hv : v ≠ 0) :
    (Player.physicsStep cfg keys s1).vel.x = Player.frictionStep cfg s1.vel.x ∧
      ∃ n, Player.frictionIter cfg n v = 0 := by
  refine ⟨physicsStep_vel_x cfg keys s1 hl hr, frictionIter_terminates cfg ?_ ?_ v⟩
  · rw [hf]
    norm_num
  · rw [hf]
    norm_num

/-- C4 witness: from `velocity.x = 5` with friction 0.12 the iteration
reaches 0, and the step agrees with the update pipeline on `sC`. -/
theorem claim_C4_witness :
    (Player.physicsStep cfg0 noKeys sC).vel.x = Player.frictionStep cfg0 sC.vel.x ∧
      ∃ n, Player.frictionIter cfg0 n 5 = 0 :=
  claim_C4_friction_convergence cfg0 noKeys sC 5 rfl rfl rfl (by norm_num)
